import Mathlib

/-!
Formal model of the RQ mobile mock backend (`src/app/main.py`).

The Python module holds two pieces of process-wide state, `MOCK_USERS`
(a dict keyed by email) and `MOCK_PROPERTIES` (a list of 50 generated
records), and a collection of FastAPI request handlers.  The embedding
below represents the state as an explicit `Store` value that every
handler receives and returns, randomness (`random.*`, `uuid.uuid4`,
`datetime.utcnow`) as oracle parameters supplied by the caller, and
fallible handlers as `Except` values: an `HTTPException` becomes
`HandlerFailure.http`, an uncaught Python exception (`ZeroDivisionError`,
`KeyError`) becomes its own constructor.
-/

namespace RQBackend

/-- Python list-slice index normalisation: for a list of length `n`, the
effective index of `i` in `l[a:b]` is `n + i` clamped below by `0` when
`i < 0`, and `i` clamped above by `n` otherwise (CPython semantics). -/
def pyIndex (n : Nat) (i : Int) : Nat :=
  if i < 0 then ((n : Int) + i).toNat else min i.toNat n

/-- Python list slicing `l[a:b]`: out-of-range and negative bounds are
normalised by `pyIndex` and never raise. -/
def pySlice {α : Type} (l : List α) (a b : Int) : List α :=
  (l.drop (pyIndex l.length a)).take (pyIndex l.length b - pyIndex l.length a)

/-- Models Python `str.lower()` character-wise.  `Char.toLower` only maps
the ASCII uppercase range; the Hebrew characters used by this repository
have no case and are left unchanged by both functions. -/
def pyLower (s : String) : String :=
  String.mk (s.data.map Char.toLower)

/-- Helper for `pyContains`: does `s` start with `q`? -/
def listStartsWith : List Char → List Char → Bool
  | [], _ => true
  | _ :: _, [] => false
  | a :: as, b :: bs => a == b && listStartsWith as bs

/-- Models the Python substring test `q in s` on character lists. -/
def listSubstr (q : List Char) : List Char → Bool
  | [] => q == []
  | c :: rest => listStartsWith q (c :: rest) || listSubstr q rest

/-- Models the Python substring test `q in s` on strings. -/
def pyContains (q s : String) : Bool :=
  listSubstr q.toList s.toList

/-- Data model of a user record (`MOCK_USERS` values and registration). -/
structure User where
  id : String
  firstName : String
  lastName : String
  email : String
  phone : Option String
  subscriptionTier : String
  preferredLocations : List String
  createdAt : String
deriving Repr, DecidableEq

/-- Nested address record of a property. -/
structure Address where
  street : String
  number : String
  city : String
  neighborhood : String
  latitude : ℚ
  longitude : ℚ
deriving Repr, DecidableEq

/-- Data model of a generated property record (`MOCK_PROPERTIES` entries). -/
structure Property where
  id : String
  title : String
  propertyType : String
  address : Address
  price : Nat
  pricePerSqm : Nat
  rooms : ℚ
  sizeSqm : Nat
  floor : Nat
  totalFloors : Nat
  rqScore : Nat
  rqScoreLabel : String
  primaryImageUrl : String
  lastUpdatedAt : String
  features : List String
deriving Repr, DecidableEq

/-- The process-wide mutable state of `main.py`: `MOCK_USERS` (insertion
ordered dict keyed by email, modelled as an association list) and
`MOCK_PROPERTIES`. -/
structure Store where
  users : List (String × User)
  properties : List Property
deriving Repr, DecidableEq

/-- Body shape of an `HTTPException` raised by a handler. -/
structure ApiError where
  status : Nat
  error : String
  message : String
deriving Repr, DecidableEq

/-- Failure of one handler call: a deliberate `HTTPException`, or an
uncaught Python exception (which FastAPI surfaces as HTTP 500). -/
inductive HandlerFailure where
  | http (e : ApiError)
  | zeroDivision
  | keyError
deriving Repr, DecidableEq

def conflictError : ApiError :=
  { status := 409, error := "conflict", message := "Email already exists" }

def unauthorizedError : ApiError :=
  { status := 401, error := "unauthorized", message := "Invalid credentials" }

def notFoundError : ApiError :=
  { status := 404, error := "not_found", message := "Property not found" }

/-- Token bundle returned by `generate_tokens`. -/
structure Tokens where
  accessToken : String
  refreshToken : String
  expiresIn : Nat
deriving Repr, DecidableEq

/-- Embeds `generate_tokens`; the two `uuid.uuid4().hex[:16]` draws are
oracle parameters. -/
def generate_tokens (user_id : String) (accessSuffix refreshSuffixStr : String) : Tokens :=
  { accessToken := "access-token-" ++ user_id ++ "-" ++ accessSuffix
    refreshToken := "refresh-token-" ++ user_id ++ "-" ++ refreshSuffixStr
    expiresIn := 3600 }

/-- Seed user `MOCK_USERS["test@example.com"]`. -/
def seedTestUser : User :=
  { id := "user-123", firstName := "טסט", lastName := "משתמש",
    email := "test@example.com", phone := some "+972501234567",
    subscriptionTier := "premium", preferredLocations := ["תל אביב", "רמת גן"],
    createdAt := "2025-01-01T00:00:00Z" }

/-- Seed user `MOCK_USERS["demo@rq.app"]`. -/
def seedDemoUser : User :=
  { id := "user-456", firstName := "דמו", lastName := "המשתמש",
    email := "demo@rq.app", phone := none,
    subscriptionTier := "free", preferredLocations := [],
    createdAt := "2025-01-01T00:00:00Z" }

/-- Initial contents of `MOCK_USERS`. -/
def seedUsers : List (String × User) :=
  [("test@example.com", seedTestUser), ("demo@rq.app", seedDemoUser)]

/-- Vocabulary `cities` of the generator. -/
def cities : List String := ["תל אביב", "ירושלים", "חיפה", "ראשון לציון", "נתניה"]

/-- Vocabulary `streets` of the generator. -/
def streets : List String := ["הרצל", "דיזנגוף", "אלנבי", "בוגרשוב", "שבזי"]

/-- Vocabulary `property_types` of the generator. -/
def property_types : List String := ["apartment", "penthouse", "house"]

/-- Vocabulary `features` of the generator. -/
def featureVocab : List String :=
  ["mamad", "elevator", "parking", "storage", "balcony", "renovated"]

/-- Room-count choices `[1.5, 2, 2.5, 3, 3.5, 4, 5]` of the generator. -/
def roomsChoices : List ℚ := [3/2, 2, 5/2, 3, 7/2, 4, 5]

/-- Vocabulary of `rqScoreLabel` choices of the generator. -/
def rqScoreLabels : List String := ["השקעה מצוינת", "השקעה טובה", "הוגן"]

/-- Values drawn from `random` for one generated property.  Each field
records the outcome of one `random.choice` / `random.randint` /
`random.random` / `random.sample` call in the loop body of
`generate_mock_properties`. -/
structure PropertyRandom where
  city : String
  price : Nat
  size : Nat
  rooms : ℚ
  propertyType : String
  street : String
  number : Nat
  neighborhoodNum : Nat
  latFrac : ℚ
  lngFrac : ℚ
  floorNum : Nat
  totalFloors : Nat
  rqScore : Nat
  rqScoreLabel : String
  features : List String
deriving Repr, DecidableEq

/-- Validity of one batch of random draws: each value lies in the range or
vocabulary that the corresponding `random` call draws from. -/
def PropertyRandom.Valid (r : PropertyRandom) : Prop :=
  r.city ∈ cities ∧ r.street ∈ streets ∧ r.propertyType ∈ property_types ∧
  r.rooms ∈ roomsChoices ∧ r.rqScoreLabel ∈ rqScoreLabels ∧
  1000000 ≤ r.price ∧ r.price ≤ 6000000 ∧
  50 ≤ r.size ∧ r.size ≤ 150 ∧
  1 ≤ r.number ∧ r.number ≤ 100 ∧
  1 ≤ r.neighborhoodNum ∧ r.neighborhoodNum ≤ 10 ∧
  0 ≤ r.latFrac ∧ r.latFrac < 1 ∧ 0 ≤ r.lngFrac ∧ r.lngFrac < 1 ∧
  1 ≤ r.floorNum ∧ r.floorNum ≤ 15 ∧
  3 ≤ r.totalFloors ∧ r.totalFloors ≤ 20 ∧
  40 ≤ r.rqScore ∧ r.rqScore ≤ 95 ∧
  r.features.Nodup ∧ r.features.length ≤ 4 ∧ ∀ f ∈ r.features, f ∈ featureVocab

/-- Loop body of `generate_mock_properties` for index `i` (1-based).
Python `int(rooms)` truncates toward zero; the room choices are all
positive, so it coincides with the floor. -/
def mkProperty (i : Nat) (r : PropertyRandom) : Property :=
  { id := "property-" ++ toString i
    title := "דירה " ++ toString ⌊r.rooms⌋ ++ " חדרים ב" ++ r.city
    propertyType := r.propertyType
    address :=
      { street := r.street
        number := toString r.number
        city := r.city
        neighborhood := "שכונת " ++ toString r.neighborhoodNum
        latitude := 32 + r.latFrac
        longitude := 34 + r.lngFrac }
    price := r.price
    pricePerSqm := r.price / r.size
    rooms := r.rooms
    sizeSqm := r.size
    floor := r.floorNum
    totalFloors := r.totalFloors
    rqScore := r.rqScore
    rqScoreLabel := r.rqScoreLabel
    primaryImageUrl := "https://picsum.photos/400/300?random=" ++ toString i
    lastUpdatedAt := "2025-01-15T10:30:00Z"
    features := r.features }

/-- Embeds `generate_mock_properties`: appends `mkProperty i` for
`i = 1, ..., 50`, with the random draws supplied by the oracle `rnd`. -/
def generate_mock_properties (rnd : Nat → PropertyRandom) : List Property :=
  (List.range 50).map (fun k => mkProperty (k + 1) (rnd (k + 1)))

/-- A property list is a possible value of `MOCK_PROPERTIES` at startup:
it is produced by the generator from some valid sequence of random draws. -/
def GeneratedCatalog (props : List Property) : Prop :=
  ∃ rnd : Nat → PropertyRandom,
    (∀ i, 1 ≤ i → i ≤ 50 → (rnd i).Valid) ∧ props = generate_mock_properties rnd

/-- Request body of `POST auth/register` (`RegisterRequest` in the source). -/
structure RegisterRequest where
  firstName : String
  lastName : String
  email : String
  password : String
  phone : Option String
deriving Repr, DecidableEq

/-- Request body of `POST auth/login`. -/
structure LoginRequest where
  email : String
  password : String
deriving Repr, DecidableEq

/-- Request body of `POST auth/refresh`. -/
structure RefreshRequest where
  refreshToken : String
deriving Repr, DecidableEq

/-- Request body of `POST properties/saved`.  Pydantic gives
`alertsEnabled` the default `True` when the field is omitted; an explicit
JSON `null` yields `none`. -/
structure SavePropertyRequest where
  propertyId : String
  alertsEnabled : Option Bool
deriving Repr, DecidableEq

/-- Request body of `POST billing/ios/verify`. -/
structure ReceiptVerifyRequest where
  receiptData : String
  productId : Option String
deriving Repr, DecidableEq

/-- Success body of register and login: `{user, tokens}`. -/
structure AuthResponse where
  user : User
  tokens : Tokens
deriving Repr, DecidableEq

/-- The `meta` object of the search (and notifications) envelope. -/
structure SearchMeta where
  page : Int
  pageSize : Int
  totalPages : Int
  totalItems : Nat
deriving Repr, DecidableEq

/-- Success body of `GET properties/search`. -/
structure SearchResponse where
  items : List Property
  meta : SearchMeta
deriving Repr, DecidableEq

/-- The amenity block randomised by `get_property` on every read. -/
structure Amenities where
  mamad : Bool
  elevator : Bool
  parkingSpots : Nat
  storage : Bool
  balconySizeSqm : Nat
  renovated : Bool
  accessible : Bool
  ac : Bool
deriving Repr, DecidableEq

/-- The `prediction` block of a property detail response. -/
structure Prediction where
  forecast12Months : Nat
  forecast24Months : Nat
  forecast60Months : Nat
  expectedIncreasePct : ℚ
  annualRoiPct : ℚ
  confidencePct : Nat
deriving Repr, DecidableEq

/-- Randomised counters of the neighborhood amenity block. -/
structure NeighborhoodAmenities where
  schools : Nat
  parks : Nat
  transitLines : Nat
  shoppingCenters : Nat
deriving Repr, DecidableEq

/-- The `neighborhood` block of a property detail response. -/
structure Neighborhood where
  name : String
  avgPricePerSqm : Int
  avgRqScore : Nat
  propertiesCount : Nat
  amenities : NeighborhoodAmenities
deriving Repr, DecidableEq

/-- One entry of the `reasons` list of a detail response. -/
structure Reason where
  label : String
  sentiment : String
deriving Repr, DecidableEq

/-- Full property detail response: the stored record (`prop.copy()`)
plus the keys added by `full_property.update({...})`. -/
structure PropertyDetail where
  base : Property
  description : String
  mediaImages : List String
  mediaVideos : List String
  amenities : Amenities
  prediction : Prediction
  neighborhood : Neighborhood
  reasons : List Reason
deriving Repr, DecidableEq

/-- Values drawn from `random` during one `get_property` call. -/
structure DetailRandom where
  mamad : Bool
  elevator : Bool
  parkingSpots : Nat
  storage : Bool
  balconySizeSqm : Nat
  renovated : Bool
  accessible : Bool
  ac : Bool
  avgPriceJitter : Int
  avgRqScore : Nat
  propertiesCount : Nat
  schools : Nat
  parks : Nat
  transitLines : Nat
  shoppingCenters : Nat
deriving Repr, DecidableEq

/-- The `meta` block of a saved-property entry. -/
structure SavedMeta where
  savedAt : String
  alertsEnabled : Option Bool
  lastChange : Option String
  daysSaved : Nat
deriving Repr, DecidableEq

/-- One synthesized saved-property entry. -/
structure SavedEntry where
  id : String
  property : Property
  meta : SavedMeta
deriving Repr, DecidableEq

/-- Values drawn from `random` and `datetime.utcnow` for one entry of the
`get_saved_properties` loop; the computed timestamp is folded into one
oracle string. -/
structure SavedRandom where
  savedAtIso : String
  alertsEnabled : Bool
  lastChange : Option String
  daysSaved : Nat
deriving Repr, DecidableEq

/-- Metadata bag of a synthesized notification. -/
structure NotificationMetadata where
  thumbnailUrl : String
  city : String
  rqScore : Nat
  price : Nat
  changePercent : ℚ
deriving Repr, DecidableEq

/-- One synthesized notification. -/
structure Notification where
  id : String
  type : String
  title : String
  body : String
  createdAt : String
  readAt : Option String
  propertyId : String
  savedSearchId : Option String
  metadata : NotificationMetadata
deriving Repr, DecidableEq

/-- Success body of `GET notifications`. -/
structure NotificationsResponse where
  items : List Notification
  meta : SearchMeta
deriving Repr, DecidableEq

/-- Values drawn from `random` and `datetime.utcnow` for one entry of the
`get_notifications` loop. -/
structure NotificationRandom where
  typeStr : String
  createdAtIso : String
  propertyNum : Nat
  rqScore : Nat
  price : Nat
  changePercent : ℚ
deriving Repr, DecidableEq

/-- Subscription status body. -/
structure Subscription where
  tier : String
  expiresAt : String
  autoRenewing : Bool
deriving Repr, DecidableEq

/-- Success body of `POST billing/ios/verify`. -/
structure ReceiptVerifyResponse where
  success : Bool
  subscription : Subscription
  message : String
deriving Repr, DecidableEq

/-- Embeds the user literal that `register` builds for a fresh email; the
`uuid` draw and the `datetime.utcnow().isoformat()` string are oracle
parameters. -/
def newUserOf (payload : RegisterRequest) (idSuffix nowIso : String) : User :=
  { id := "user-" ++ idSuffix
    firstName := payload.firstName
    lastName := payload.lastName
    email := payload.email
    phone := payload.phone
    subscriptionTier := "free"
    preferredLocations := []
    createdAt := nowIso ++ "Z" }

/-- Embeds `register` (POST auth/register).  A fresh dict key appends in
Python dict insertion order, hence the list append. -/
def register (store : Store) (payload : RegisterRequest)
    (idSuffix accessSuffix refreshSuffixStr nowIso : String) :
    Except HandlerFailure (AuthResponse × Store) :=
  if (store.users.lookup payload.email).isSome then
    .error (.http conflictError)
  else
    let user := newUserOf payload idSuffix nowIso
    .ok ({ user := user,
           tokens := generate_tokens ("user-" ++ idSuffix) accessSuffix refreshSuffixStr },
         { store with users := store.users ++ [(payload.email, user)] })

/-- Embeds `login` (POST auth/login).  The source raises 401 when
`email not in MOCK_USERS or password not in {"password123", "demo123"}`;
the match below makes the same case split. -/
def login (store : Store) (email password : String)
    (accessSuffix refreshSuffixStr : String) :
    Except HandlerFailure (AuthResponse × Store) :=
  match store.users.lookup email with
  | none => .error (.http unauthorizedError)
  | some user =>
    if password = "password123" ∨ password = "demo123" then
      .ok ({ user := user, tokens := generate_tokens user.id accessSuffix refreshSuffixStr },
           store)
    else
      .error (.http unauthorizedError)

/-- Embeds `refresh_token` (POST auth/refresh): ignores the submitted
token and issues tokens for the hardcoded id `user-123`. -/
def refresh_token (store : Store) (payload : RefreshRequest)
    (accessSuffix refreshSuffixStr : String) :
    Except HandlerFailure (Tokens × Store) :=
  .ok (generate_tokens "user-123" accessSuffix refreshSuffixStr, store)

/-- Embeds `logout` (POST auth/logout): returns an empty body. -/
def logout (store : Store) : Except HandlerFailure (Unit × Store) :=
  .ok ((), store)

/-- Embeds `verify_device` (POST auth/verify-device): empty body. -/
def verify_device (store : Store) : Except HandlerFailure (Unit × Store) :=
  .ok ((), store)

/-- Embeds `health_ping` (GET /health/ping). -/
def health_ping (store : Store) : Except HandlerFailure (String × Store) :=
  .ok ("ok", store)

/-- Filtering step of `search_properties`: `filtered = list(MOCK_PROPERTIES)`
followed by the conditional list comprehension.  `if query:` in Python is
false for both an absent parameter and the empty string. -/
def searchFilter (properties : List Property) (query : Option String) : List Property :=
  match query with
  | none => properties
  | some qs =>
    if qs = "" then properties
    else
      let q := pyLower qs
      properties.filter (fun p =>
        pyContains q (pyLower p.address.city) || pyContains q (pyLower p.title))

/-- Embeds `search_properties` (GET properties/search).  Python `//` is
floor division, hence `Int.fdiv`; when the clamped page size is `0` the
expression `len(filtered) // page_size` raises `ZeroDivisionError` (the
slice itself never raises). -/
def search_properties (store : Store) (page pageSize : Int) (query : Option String) :
    Except HandlerFailure (SearchResponse × Store) :=
  let page_size := min pageSize 50
  let filtered := searchFilter store.properties query
  let start := (page - 1) * page_size
  let stop := start + page_size
  let items := pySlice filtered start stop
  if page_size = 0 then
    .error .zeroDivision
  else
    .ok ({ items := items,
           meta := { page := page, pageSize := page_size,
                     totalPages := Int.fdiv (filtered.length : Int) page_size + 1,
                     totalItems := filtered.length } },
         store)

/-- Embeds `get_property` (GET properties/{property_id}).  The three
forecast fields are `int(price * f)` computed with IEEE doubles in the
source; for every price the generator can produce (an integer in
[1000000, 6000000]) the double rounding error is below 3e-10 while the
exact products sit on a grid of multiples of 1/20 or 1/25, so truncating
the double equals truncating the exact rational, i.e. Nat floor division
of `21*price`, `27*price`, `23*price`.  The `random` draws are supplied
by the `rnd` oracle. -/
def get_property (store : Store) (property_id : String) (rnd : DetailRandom) :
    Except HandlerFailure (PropertyDetail × Store) :=
  match store.properties.find? (fun p => p.id == property_id) with
  | none => .error (.http notFoundError)
  | some prop =>
    .ok ({ base := prop
           description := prop.title ++ ". דירה מרווחת ומוארת ב" ++ prop.address.city ++ "."
           mediaImages :=
             [ "https://picsum.photos/600/400?random=" ++ property_id ++ "-1"
             , "https://picsum.photos/600/400?random=" ++ property_id ++ "-2"
             , "https://picsum.photos/600/400?random=" ++ property_id ++ "-3" ]
           mediaVideos := []
           amenities :=
             { mamad := rnd.mamad, elevator := rnd.elevator,
               parkingSpots := rnd.parkingSpots, storage := rnd.storage,
               balconySizeSqm := rnd.balconySizeSqm, renovated := rnd.renovated,
               accessible := rnd.accessible, ac := rnd.ac }
           prediction :=
             { forecast12Months := 21 * prop.price / 20
               forecast24Months := 27 * prop.price / 25
               forecast60Months := 23 * prop.price / 20
               expectedIncreasePct := 5
               annualRoiPct := 5/2
               confidencePct := 80 }
           neighborhood :=
             { name := prop.address.neighborhood
               avgPricePerSqm := ((prop.price / prop.sizeSqm : Nat) : Int) + rnd.avgPriceJitter
               avgRqScore := rnd.avgRqScore
               propertiesCount := rnd.propertiesCount
               amenities :=
                 { schools := rnd.schools, parks := rnd.parks,
                   transitLines := rnd.transitLines,
                   shoppingCenters := rnd.shoppingCenters } }
           reasons :=
             [ { label := "מיקום מרכזי", sentiment := "positive" }
             , { label := "מחיר תחרותי", sentiment := "positive" } ] },
         store)

/-- Embeds `get_saved_properties` (GET properties/saved handler function):
synthesizes one entry per property in `MOCK_PROPERTIES[:5]`. -/
def get_saved_properties (store : Store) (rnd : Nat → SavedRandom) :
    Except HandlerFailure (List SavedEntry × Store) :=
  .ok ((store.properties.take 5).mapIdx (fun i prop =>
         { id := "saved-" ++ prop.id
           property := prop
           meta := { savedAt := (rnd i).savedAtIso ++ "Z"
                     alertsEnabled := some (rnd i).alertsEnabled
                     lastChange := (rnd i).lastChange
                     daysSaved := (rnd i).daysSaved } }),
       store)

/-- Embeds `save_property` (POST properties/saved). -/
def save_property (store : Store) (payload : SavePropertyRequest) (nowIso : String) :
    Except HandlerFailure (SavedEntry × Store) :=
  match store.properties.find? (fun p => p.id == payload.propertyId) with
  | none => .error (.http notFoundError)
  | some prop =>
    .ok ({ id := "saved-" ++ payload.propertyId
           property := prop
           meta := { savedAt := nowIso ++ "Z"
                     alertsEnabled := payload.alertsEnabled
                     lastChange := none
                     daysSaved := 0 } },
         store)

/-- Embeds `delete_saved_property` (DELETE properties/saved/{id}): no-op. -/
def delete_saved_property (store : Store) (saved_id : String) :
    Except HandlerFailure (Unit × Store) :=
  .ok ((), store)

/-- Embeds `get_profile` (GET user/profile): returns
`MOCK_USERS["test@example.com"]`; a Python dict access on a missing key
would raise `KeyError`. -/
def get_profile (store : Store) : Except HandlerFailure (User × Store) :=
  match store.users.lookup "test@example.com" with
  | some u => .ok (u, store)
  | none => .error .keyError

/-- Embeds `get_subscription` (GET user/subscription); the computed
expiry timestamp is an oracle string. -/
def get_subscription (store : Store) (expiresIso : String) :
    Except HandlerFailure (Subscription × Store) :=
  .ok ({ tier := "premium", expiresAt := expiresIso ++ "Z", autoRenewing := true }, store)

/-- Loop body of `get_notifications` for index `i`. -/
def mkNotification (i : Nat) (r : NotificationRandom) : Notification :=
  { id := "notif-" ++ toString i
    type := r.typeStr
    title := "עדכון חדש"
    body := "המחיר של נכס שמור ירד ב-2%"
    createdAt := r.createdAtIso ++ "Z"
    readAt := none
    propertyId := "property-" ++ toString r.propertyNum
    savedSearchId := none
    metadata := { thumbnailUrl := "https://picsum.photos/100/100?random=1"
                  city := "תל אביב"
                  rqScore := r.rqScore
                  price := r.price
                  changePercent := r.changePercent } }

/-- Embeds `get_notifications` (GET notifications): synthesizes
`range(pageSize)` fresh entries (empty for a non-positive `pageSize`,
as in Python) with a hardcoded total of 3 pages / 25 items. -/
def get_notifications (store : Store) (page pageSize : Int)
    (rnd : Nat → NotificationRandom) :
    Except HandlerFailure (NotificationsResponse × Store) :=
  .ok ({ items := (List.range pageSize.toNat).map (fun i => mkNotification i (rnd i)),
         meta := { page := page, pageSize := pageSize, totalPages := 3, totalItems := 25 } },
       store)

/-- Embeds `mark_notification_read` (PUT notifications/{id}/read): no-op. -/
def mark_notification_read (store : Store) (notification_id : String) :
    Except HandlerFailure (Unit × Store) :=
  .ok ((), store)

/-- Embeds `verify_receipt` (POST billing/ios/verify): unconditional
success regardless of the submitted receipt. -/
def verify_receipt (store : Store) (payload : ReceiptVerifyRequest) (expiresIso : String) :
    Except HandlerFailure (ReceiptVerifyResponse × Store) :=
  .ok ({ success := true
         subscription := { tier := "premium", expiresAt := expiresIso ++ "Z",
                           autoRenewing := true }
         message := "Subscription activated" },
       store)

/-- The store after a handler call: the returned store on success; an
exception aborts the request before any of these handlers mutate state,
leaving the store as it was. -/
def resultStore {α : Type} (s : Store) : Except HandlerFailure (α × Store) → Store
  | .ok (_, s2) => s2
  | .error _ => s

/-- One segment of a route pattern: a literal, or a `{...}` path
parameter (Starlette matches a parameter against any single segment). -/
inductive Seg where
  | lit (s : String)
  | param (name : String)
deriving Repr, DecidableEq

/-- The GET endpoints of `main.py`, one constructor per decorated
handler. -/
inductive GetEndpoint where
  | healthPing
  | propertiesSearch
  | propertyDetail
  | propertiesSaved
  | userProfile
  | userSubscription
  | notificationsList
deriving Repr, DecidableEq

/-- The GET route table in decoration order (source lines 139, 206, 234,
293, 341, 347, 361).  Starlette keeps routes in registration order, so
the parametrized `properties/{property_id}` pattern precedes the literal
`properties/saved` pattern. -/
def getRoutes : List (List Seg × GetEndpoint) :=
  [ ([.lit "health", .lit "ping"], .healthPing)
  , ([.lit "api", .lit "v2", .lit "mobile", .lit "properties", .lit "search"],
     .propertiesSearch)
  , ([.lit "api", .lit "v2", .lit "mobile", .lit "properties", .param "property_id"],
     .propertyDetail)
  , ([.lit "api", .lit "v2", .lit "mobile", .lit "properties", .lit "saved"],
     .propertiesSaved)
  , ([.lit "api", .lit "v2", .lit "mobile", .lit "user", .lit "profile"],
     .userProfile)
  , ([.lit "api", .lit "v2", .lit "mobile", .lit "user", .lit "subscription"],
     .userSubscription)
  , ([.lit "api", .lit "v2", .lit "mobile", .lit "notifications"],
     .notificationsList) ]

/-- Does one pattern segment match one path segment? -/
def segMatches : Seg → String → Bool
  | .lit s, t => s == t
  | .param _, _ => true

/-- Does a route pattern match a whole path? -/
def pathMatches (pat : List Seg) (path : List String) : Bool :=
  pat.length == path.length && (pat.zip path).all (fun st => segMatches st.1 st.2)

/-- Starlette / FastAPI dispatch: the first registered route whose
pattern matches the path wins. -/
def dispatchGet (path : List String) : Option GetEndpoint :=
  (getRoutes.find? (fun r => pathMatches r.1 path)).map (fun r => r.2)

/-- A fixed sequence of generator draws used for concrete evaluations:
every draw is valid, and the price 1000011 exhibits a fractional
forecast product (1000011 * 1.05 = 1050011.55). -/
def demoRand : Nat → PropertyRandom := fun _ =>
  { city := "תל אביב", price := 1000011, size := 50, rooms := 3,
    propertyType := "apartment", street := "הרצל", number := 1,
    neighborhoodNum := 1, latFrac := 0, lngFrac := 0, floorNum := 1,
    totalFloors := 3, rqScore := 40, rqScoreLabel := "הוגן", features := [] }

/-- A concrete store as produced at process start from `demoRand`. -/
def demoStore : Store :=
  { users := seedUsers, properties := generate_mock_properties demoRand }

/-- A fixed batch of detail-handler random draws. -/
def demoDetailRandom : DetailRandom :=
  { mamad := false, elevator := false, parkingSpots := 0, storage := false,
    balconySizeSqm := 0, renovated := false, accessible := false, ac := false,
    avgPriceJitter := 0, avgRqScore := 70, propertiesCount := 50,
    schools := 1, parks := 1, transitLines := 2, shoppingCenters := 1 }

/-- Every sequence of draws of `demoRand` is within the generator's ranges. -/
theorem demoRand_valid (i : Nat) : (demoRand i).Valid := by
  unfold PropertyRandom.Valid demoRand
  norm_num [cities, streets, property_types, roomsChoices, rqScoreLabels]

/-- C10: a search request whose `query` parameter is the empty string is
handled exactly as if no query were supplied: `if query:` is false for
`""`, so no filtering happens and the response is the one of the
unfiltered catalog. -/
theorem c10_empty_query_unfiltered (store : Store) (page pageSize : Int) :
    search_properties store page pageSize (some "") =
      search_properties store page pageSize none := rfl

/-- C2 (refuting theorem): a search request with `pageSize = 0` does not
return a 200 response for any store, page, or query; the handler raises
`ZeroDivisionError` evaluating `len(filtered) // page_size`, which FastAPI
surfaces as HTTP 500. -/
theorem c2_pageSize_zero_divides_by_zero (store : Store) (page : Int)
    (query : Option String) :
    search_properties store page 0 query = .error .zeroDivision := rfl

/-- C3: whenever the search handler returns a response, `meta.totalPages`
equals `floor(totalFiltered / pageSize) + 1` with `totalFiltered` the
size of the filtered sequence and `pageSize` the clamped page size
(`min pageSize 50`); Python `//` is floor division, i.e. `Int.fdiv`. -/
theorem c3_totalPages_formula (store : Store) (page pageSize : Int)
    (query : Option String) (h : min pageSize 50 ≠ 0) :
    (search_properties store page pageSize query).map (fun x => x.1.meta.totalPages)
      = .ok (Int.fdiv ((searchFilter store.properties query).length : Int)
              (min pageSize 50) + 1) := by
  simp only [search_properties, if_neg h, Except.map]

/-- Witness for C3 at the over-count point of the claim: a 50 item
catalog with `pageSize = 50` yields `totalPages = floor(50/50) + 1 = 2`. -/
theorem c3_totalPages_witness :
    (search_properties demoStore 1 50 none).map (fun x => x.1.meta.totalPages) = .ok 2 ∧
    (searchFilter demoStore.properties none).length = 50 := by
  constructor
  · rw [c3_totalPages_formula demoStore 1 50 none (by decide)]
    rfl
  · rfl

/-- C9: no handler mutates the property catalog, and no handler other
than `register` mutates the store at all; a successful registration
changes the store exactly by appending the new user under the submitted
email, leaving the catalog untouched. -/
theorem c9_catalog_immutable (store : Store) :
    (∀ page pageSize query,
        resultStore store (search_properties store page pageSize query) = store) ∧
    (∀ pid rnd, resultStore store (get_property store pid rnd) = store) ∧
    (∀ rnd, resultStore store (get_saved_properties store rnd) = store) ∧
    (∀ payload now, resultStore store (save_property store payload now) = store) ∧
    (∀ sid, resultStore store (delete_saved_property store sid) = store) ∧
    (resultStore store (get_profile store) = store) ∧
    (∀ e, resultStore store (get_subscription store e) = store) ∧
    (∀ page pageSize rnd,
        resultStore store (get_notifications store page pageSize rnd) = store) ∧
    (∀ nid, resultStore store (mark_notification_read store nid) = store) ∧
    (∀ email pw a r, resultStore store (login store email pw a r) = store) ∧
    (∀ payload a r, resultStore store (refresh_token store payload a r) = store) ∧
    (resultStore store (logout store) = store) ∧
    (resultStore store (verify_device store) = store) ∧
    (resultStore store (health_ping store) = store) ∧
    (∀ payload e, resultStore store (verify_receipt store payload e) = store) ∧
    (∀ payload i a r now,
        resultStore store (register store payload i a r now) =
          if (store.users.lookup payload.email).isSome then store
          else { store with
                 users := store.users ++ [(payload.email, newUserOf payload i now)] }) ∧
    (∀ payload i a r now,
        (resultStore store (register store payload i a r now)).properties =
          store.properties) := by
  refine ⟨?_, ?_, ?_, ?_, ?_, ?_, ?_, ?_, ?_, ?_, ?_, ?_, ?_, ?_, ?_, ?_, ?_⟩
  · intro page pageSize query
    by_cases h : min pageSize 50 = 0 <;>
      simp [search_properties, resultStore, h]
  · intro pid rnd
    rcases h : store.properties.find? (fun p => p.id == pid) with _ | p <;>
      simp [get_property, resultStore, h]
  · intro rnd; rfl
  · intro payload now
    rcases h : store.properties.find? (fun p => p.id == payload.propertyId) with _ | p <;>
      simp [save_property, resultStore, h]
  · intro sid; rfl
  · rcases h : store.users.lookup "test@example.com" with _ | u <;>
      simp [get_profile, resultStore, h]
  · intro e; rfl
  · intro page pageSize rnd; rfl
  · intro nid; rfl
  · intro email pw a r
    rcases h : store.users.lookup email with _ | u
    · simp [login, resultStore, h]
    · by_cases hp : pw = "password123" ∨ pw = "demo123" <;>
        simp [login, resultStore, h, hp]
  · intro payload a r; rfl
  · rfl
  · rfl
  · rfl
  · intro payload e; rfl
  · intro payload i a r now
    by_cases h : (store.users.lookup payload.email).isSome <;>
      simp [register, resultStore, h]
  · intro payload i a r now
    by_cases h : (store.users.lookup payload.email).isSome <;>
      simp [register, resultStore, h]

/-- C6: login succeeds exactly when the submitted email is a key of the
user store and the password is one of the two literal strings
`password123` and `demo123`; a success returns the stored user together
with freshly issued tokens, and every other case fails with 401
unauthorized. -/
theorem c6_login_iff (store : Store) (email password aSuf rSuf : String) :
    ((∃ resp s2, login store email password aSuf rSuf = .ok (resp, s2)) ↔
      ((store.users.lookup email).isSome ∧
        (password = "password123" ∨ password = "demo123"))) ∧
    (∀ u, store.users.lookup email = some u →
      (password = "password123" ∨ password = "demo123") →
      login store email password aSuf rSuf =
        .ok ({ user := u, tokens := generate_tokens u.id aSuf rSuf }, store)) ∧
    (store.users.lookup email = none ∨
        (password ≠ "password123" ∧ password ≠ "demo123") →
      login store email password aSuf rSuf = .error (.http unauthorizedError)) := by
  rcases h : store.users.lookup email with _ | u
  · refine ⟨?_, ?_, ?_⟩
    · simp [login, h]
    · intro u hu
      simp at hu
    · intro _
      simp [login, h]
  · by_cases hp : password = "password123" ∨ password = "demo123"
    · refine ⟨?_, ?_, ?_⟩
      · simp [login, h, hp]
      · intro u2 hu2 _
        rw [Option.some_inj] at hu2
        subst hu2
        simp [login, h, hp]
      · rintro (hnone | ⟨hp1, hp2⟩)
        · simp at hnone
        · rcases hp with hp | hp
          · exact absurd hp hp1
          · exact absurd hp hp2
    · refine ⟨?_, ?_, ?_⟩
      · simp [login, h, hp]
      · intro u2 _ hp2
        exact absurd hp2 hp
      · intro _
        simp [login, h, hp]

/-- Witness for C6: the seed user logs in with `password123` and gets
back the stored user record and tokens; check also one failing case via
the refuting direction. -/
theorem c6_login_witness :
    login demoStore "test@example.com" "password123" "a" "r" =
      .ok ({ user := seedTestUser, tokens := generate_tokens "user-123" "a" "r" }, demoStore) ∧
    login demoStore "test@example.com" "wrongpass" "a" "r" =
      .error (.http unauthorizedError) := by
  constructor
  · exact (c6_login_iff demoStore "test@example.com" "password123" "a" "r").2.1
      seedTestUser rfl (Or.inl rfl)
  · exact (c6_login_iff demoStore "test@example.com" "wrongpass" "a" "r").2.2
      (Or.inr (by constructor <;> decide))

/-- Lookup in an appended association list when the key misses the front
part. -/
theorem lookup_append_of_none {β : Type} (l1 l2 : List (String × β)) (k : String)
    (h : l1.lookup k = none) : (l1 ++ l2).lookup k = l2.lookup k := by
  rw [List.lookup_append, h, Option.none_or]

/-- C7: registration fails with 409 conflict exactly when the submitted
email is already a key of the user store; otherwise it appends a fresh
user under that email with tier `free`, empty preferred locations, a
server-assigned id and timestamp, and returns `{user, tokens}` —
consequently registering the same email twice returns success then
conflict. -/
theorem c7_register_conflict_iff (store : Store) (payload : RegisterRequest)
    (idSuf aSuf rSuf now : String) :
    ((register store payload idSuf aSuf rSuf now = .error (.http conflictError)) ↔
        (store.users.lookup payload.email).isSome) ∧
    (store.users.lookup payload.email = none →
        register store payload idSuf aSuf rSuf now =
          .ok ({ user := newUserOf payload idSuf now,
                 tokens := generate_tokens ("user-" ++ idSuf) aSuf rSuf },
               { store with
                 users := store.users ++ [(payload.email, newUserOf payload idSuf now)] })) ∧
    ((newUserOf payload idSuf now).subscriptionTier = "free" ∧
      (newUserOf payload idSuf now).preferredLocations = [] ∧
      (newUserOf payload idSuf now).id = "user-" ++ idSuf ∧
      (newUserOf payload idSuf now).createdAt = now ++ "Z") ∧
    (∀ payload2 i2 a2 r2 n2 resp1 store1,
      payload2.email = payload.email →
      store.users.lookup payload.email = none →
      register store payload idSuf aSuf rSuf now = .ok (resp1, store1) →
      register store1 payload2 i2 a2 r2 n2 = .error (.http conflictError)) := by
  by_cases h : (store.users.lookup payload.email).isSome
  · refine ⟨?_, ?_, ⟨rfl, rfl, rfl, rfl⟩, ?_⟩
    · simp [register, h]
    · intro hnone
      rw [hnone] at h
      simp at h
    · intro payload2 i2 a2 r2 n2 resp1 store1 _ hnone
      rw [hnone] at h
      simp at h
  · have hnone : store.users.lookup payload.email = none :=
      Option.not_isSome_iff_eq_none.mp h
    refine ⟨?_, ?_, ⟨rfl, rfl, rfl, rfl⟩, ?_⟩
    · simp [register, h]
    · intro _
      simp [register, h]
    · intro payload2 i2 a2 r2 n2 resp1 store1 hemail _ hok
      simp only [register, h, if_false, Bool.false_eq_true] at hok
      rw [Except.ok.injEq, Prod.mk.injEq] at hok
      obtain ⟨_, hstore1⟩ := hok
      subst hstore1
      have hfound : ((store.users ++ [(payload.email, newUserOf payload idSuf now)]).lookup
          payload2.email).isSome := by
        rw [hemail, lookup_append_of_none store.users _ _ hnone]
        simp
      simp [register, hfound]

/-- Witness for C7: registering a fresh email against the seed store
succeeds with the synthesized user, and registering it again on the
resulting store returns 409 conflict. -/
theorem c7_register_witness :
    register demoStore
        { firstName := "New", lastName := "User", email := "new@x.com",
          password := "pw", phone := none } "abc" "a" "r" "t" =
      .ok ({ user := newUserOf
               { firstName := "New", lastName := "User", email := "new@x.com",
                 password := "pw", phone := none } "abc" "t",
             tokens := generate_tokens "user-abc" "a" "r" },
           { demoStore with
             users := demoStore.users ++
               [("new@x.com", newUserOf
                  { firstName := "New", lastName := "User", email := "new@x.com",
                    password := "pw", phone := none } "abc" "t")] }) ∧
    register
        { demoStore with
          users := demoStore.users ++
            [("new@x.com", newUserOf
               { firstName := "New", lastName := "User", email := "new@x.com",
                 password := "pw", phone := none } "abc" "t")] }
        { firstName := "New", lastName := "User", email := "new@x.com",
          password := "pw", phone := none } "z" "z" "z" "z" =
      .error (.http conflictError) := by
  constructor
  · exact (c7_register_conflict_iff demoStore
      { firstName := "New", lastName := "User", email := "new@x.com",
        password := "pw", phone := none } "abc" "a" "r" "t").2.1 rfl
  · exact (c7_register_conflict_iff demoStore
      { firstName := "New", lastName := "User", email := "new@x.com",
        password := "pw", phone := none } "abc" "a" "r" "t").2.2.2
      { firstName := "New", lastName := "User", email := "new@x.com",
        password := "pw", phone := none } "z" "z" "z" "z" _ _ rfl rfl
      ((c7_register_conflict_iff demoStore
        { firstName := "New", lastName := "User", email := "new@x.com",
          password := "pw", phone := none } "abc" "a" "r" "t").2.1 rfl)

/-- A generated property id never equals the literal path segment
`saved`: the two strings have different lengths. -/
theorem property_id_ne_saved (s : String) : "property-" ++ s ≠ "saved" := by
  intro h
  have h2 := congrArg String.length h
  rw [String.length_append] at h2
  have h9 : ("property-" : String).length = 9 := rfl
  have h5 : ("saved" : String).length = 5 := rfl
  omega

/-- C1 (refuting theorem): FastAPI keeps routes in registration order and
dispatches to the first match, so `GET .../properties/saved` matches the
earlier-registered pattern `properties/{property_id}` and runs the detail
handler with `property_id = "saved"`; since no generated catalog contains
that id, the request returns 404 not_found — the `get_saved_properties`
handler is unreachable and the claimed 200 with 5 items never happens. -/
theorem c1_saved_route_shadowed (store : Store) (rnd : DetailRandom)
    (hgen : GeneratedCatalog store.properties) :
    dispatchGet ["api", "v2", "mobile", "properties", "saved"] =
      some GetEndpoint.propertyDetail ∧
    get_property store "saved" rnd = .error (.http notFoundError) := by
  constructor
  · rfl
  · obtain ⟨rndg, _hvalid, hprops⟩ := hgen
    have hnone : store.properties.find? (fun p => p.id == "saved") = none := by
      rw [List.find?_eq_none]
      intro p hp
      rw [hprops] at hp
      simp only [generate_mock_properties, List.mem_map, List.mem_range] at hp
      obtain ⟨k, _hk, rfl⟩ := hp
      simp only [mkProperty, beq_iff_eq]
      exact property_id_ne_saved _
    simp [get_property, hnone]

/-- Witness for C1 on the concrete startup store. -/
theorem c1_saved_route_witness :
    dispatchGet ["api", "v2", "mobile", "properties", "saved"] =
      some GetEndpoint.propertyDetail ∧
    get_property demoStore "saved" demoDetailRandom = .error (.http notFoundError) :=
  c1_saved_route_shadowed demoStore demoDetailRandom
    ⟨demoRand, fun i _ _ => demoRand_valid i, rfl⟩

/-- The empty character list is a substring of every list. -/
theorem listSubstr_nil_left (l : List Char) : listSubstr [] l = true := by
  cases l <;> simp [listSubstr, listStartsWith]

/-- The empty string is a Python substring of every string. -/
theorem pyContains_empty_left (s : String) : pyContains "" s = true :=
  listSubstr_nil_left s.toList

/-- C8: for every supplied query string, the filtering step keeps exactly
the properties whose lowered city or lowered title contains the lowered
query as a substring — membership is characterised by pure substring
containment, every match is kept (multiplicity preserved), and the result
is a sublist of the catalog, i.e. order preserved with no reranking. -/
theorem c8_query_filter (props : List Property) (qs : String) :
    (searchFilter props (some qs)).Sublist props ∧
    (∀ p, p ∈ searchFilter props (some qs) ↔
      (p ∈ props ∧
        (pyContains (pyLower qs) (pyLower p.address.city) = true ∨
         pyContains (pyLower qs) (pyLower p.title) = true))) ∧
    (∀ p, (searchFilter props (some qs)).count p =
      (if pyContains (pyLower qs) (pyLower p.address.city) = true ∨
          pyContains (pyLower qs) (pyLower p.title) = true
       then props.count p else 0)) := by
  by_cases hq : qs = ""
  · subst hq
    have hlow : pyLower "" = "" := rfl
    refine ⟨?_, ?_, ?_⟩
    · simp [searchFilter]
    · intro p
      simp [searchFilter, hlow, pyContains_empty_left]
    · intro p
      rw [if_pos (Or.inl (by rw [hlow]; exact pyContains_empty_left _))]
      simp [searchFilter]
  · have hfilter : searchFilter props (some qs) =
        props.filter (fun p =>
          pyContains (pyLower qs) (pyLower p.address.city) ||
          pyContains (pyLower qs) (pyLower p.title)) := by
      simp [searchFilter, hq]
    refine ⟨?_, ?_, ?_⟩
    · rw [hfilter]
      exact List.filter_sublist props
    · intro p
      rw [hfilter, List.mem_filter]
      simp
    · intro p
      rw [hfilter]
      by_cases hc : pyContains (pyLower qs) (pyLower p.address.city) = true ∨
          pyContains (pyLower qs) (pyLower p.title) = true
      · rw [if_pos hc]
        exact List.count_filter (by simpa using hc)
      · rw [if_neg hc]
        rw [List.count_eq_zero]
        intro hmem
        exact hc (by simpa using (List.mem_filter.mp hmem).2)

/-- Witness for C8: a query matching nothing filters out the whole
catalog; the first generated property has count 0 in the filtered list. -/
theorem c8_query_witness :
    (searchFilter (generate_mock_properties demoRand) (some "nope")).count
      (mkProperty 1 (demoRand 1)) = 0 := by
  rw [(c8_query_filter (generate_mock_properties demoRand) "nope").2.2
    (mkProperty 1 (demoRand 1))]
  rw [if_neg]
  rintro (hc | hc) <;> revert hc <;> decide

/-- A slice whose (non-negative) start is at or past the end of the list
is empty. -/
theorem pySlice_out_of_range {α : Type} (l : List α) (a b : Int)
    (h0 : 0 ≤ a) (h : (l.length : Int) ≤ a) : pySlice l a b = [] := by
  have ha : pyIndex l.length a = l.length := by
    unfold pyIndex
    rw [if_neg (by omega)]
    omega
  unfold pySlice
  rw [ha, List.drop_length, List.take_nil]

/-- Length of a Python slice with non-negative in-range start. -/
theorem pySlice_length {α : Type} (l : List α) (a b : Int)
    (h0 : 0 ≤ a) (hab : a ≤ b) (hlt : a < (l.length : Int)) :
    ((pySlice l a b).length : Int) = min (b - a) ((l.length : Int) - a) := by
  unfold pySlice pyIndex
  rw [if_neg (by omega), if_neg (by omega)]
  rw [List.length_take, List.length_drop]
  omega

/-- C4 (amended: `pageSize ≥ 1` added): for a successful no-query search
with `page ≥ 1` and `pageSize ≥ 1`, the items are the Python slice
`[start : start + page_size]` of the catalog with
`start = (page-1) * min(pageSize,50)`; an out-of-range start yields an
empty list, and otherwise the number of items is `min(pageSize,50)`
clamped by the remaining tail `totalItems - start`. -/
theorem c4_pagination_slice (store : Store) (page pageSize : Int)
    (resp : SearchResponse) (s2 : Store)
    (h : search_properties store page pageSize none = .ok (resp, s2))
    (hpage : 1 ≤ page) (hps : 1 ≤ pageSize) :
    resp.items =
      pySlice store.properties ((page - 1) * min pageSize 50)
        ((page - 1) * min pageSize 50 + min pageSize 50) ∧
    ((store.properties.length : Int) ≤ (page - 1) * min pageSize 50 →
      resp.items = []) ∧
    ((page - 1) * min pageSize 50 < (store.properties.length : Int) →
      (resp.items.length : Int) =
        min (min pageSize 50)
          ((store.properties.length : Int) - (page - 1) * min pageSize 50)) := by
  have hmin1 : (1 : Int) ≤ min pageSize 50 := by omega
  have hne : min pageSize 50 ≠ 0 := by omega
  have hstart0 : 0 ≤ (page - 1) * min pageSize 50 :=
    mul_nonneg (by omega) (by omega)
  simp only [search_properties, if_neg hne, searchFilter,
    Except.ok.injEq, Prod.mk.injEq] at h
  obtain ⟨hresp, _⟩ := h
  subst hresp
  refine ⟨rfl, ?_, ?_⟩
  · intro hout
    exact pySlice_out_of_range store.properties _ _ hstart0 hout
  · intro hin
    rw [pySlice_length store.properties _ _ hstart0 (by omega) hin]
    omega

/-- Witness for C4 on the concrete startup store: page 2 at page size 50
has `start = 50 ≥ totalItems = 50`, so the items list is empty. -/
theorem c4_pagination_witness :
    (search_properties demoStore 2 50 none).map (fun x => x.1.items) =
      .ok ([] : List Property) := by
  have hex : ∃ resp s2, search_properties demoStore 2 50 none = .ok (resp, s2) :=
    ⟨_, _, rfl⟩
  obtain ⟨resp, s2, hok⟩ := hex
  have hempty := (c4_pagination_slice demoStore 2 50 resp s2 hok
    (by omega) (by omega)).2.1 (by decide)
  rw [hok]
  simp only [Except.map]
  rw [hempty]

/-- C4 counterexample: with `page = 1 ≥ 1` but `pageSize = -5`, the
handler succeeds and returns 45 items on the 50 item startup catalog
(Python negative-slice semantics), while the claim predicts
`min(pageSize, 50) = -5` items (or `totalItems - start = 50` on a last
page, or an empty result on the interval reading of the slice). -/
theorem c4_counterexample :
    (search_properties demoStore 1 (-5) none).map
        (fun x => ((x.1.items.length : Int))) = .ok 45 ∧
    ((45 : Int) ≠ min (-5 : Int) 50) ∧
    ((45 : Int) ≠ 50 - 0) ∧
    ((45 : Int) ≠ 0) := by
  refine ⟨?_, by decide, by decide, by decide⟩
  rfl

/-- What the specification text asserts the 12-month forecast to be:
`round(price * 1.05)` (stated for comparison with the code, which
truncates instead of rounding). -/
def spec_forecast12Months (price : Nat) : ℤ :=
  round ((price : ℚ) * 1.05)

/-- C5 (amended: the forecast is the truncation `int(price * 1.05)`,
i.e. `floor`, not `round`): for every id present in a generated catalog
the detail handler succeeds and reports
`forecast12Months = 21 * price / 20` (Nat floor division) for the found
property, and for every id not present it fails with 404 not_found. -/
theorem c5_detail_forecast (store : Store) (rnd : DetailRandom) (pid : String)
    (_hgen : GeneratedCatalog store.properties) :
    ((∃ p ∈ store.properties, p.id = pid) →
      ∃ p ∈ store.properties, p.id = pid ∧
        (get_property store pid rnd).map (fun x => x.1.prediction.forecast12Months)
          = .ok (21 * p.price / 20)) ∧
    ((¬ ∃ p ∈ store.properties, p.id = pid) →
      get_property store pid rnd = .error (.http notFoundError)) := by
  constructor
  · rintro ⟨p, hp, hpid⟩
    have hsome : (store.properties.find? (fun q => q.id == pid)).isSome := by
      rw [List.find?_isSome]
      exact ⟨p, hp, by simp [hpid]⟩
    obtain ⟨q, hq⟩ := Option.isSome_iff_exists.mp hsome
    have hqmem := List.mem_of_find?_eq_some hq
    have hqid : q.id = pid := by simpa using List.find?_some hq
    refine ⟨q, hqmem, hqid, ?_⟩
    simp [get_property, hq, Except.map]
  · intro hnone
    have hfind : store.properties.find? (fun q => q.id == pid) = none := by
      rw [List.find?_eq_none]
      intro q hqmem
      simp only [beq_iff_eq]
      exact fun hcontra => hnone ⟨q, hqmem, hcontra⟩
    simp [get_property, hfind]

/-- Witness for C5: on the concrete startup store, an unknown id yields
404 and the id `property-1` does not. -/
theorem c5_detail_witness :
    get_property demoStore "no-such-id" demoDetailRandom =
      .error (.http notFoundError) ∧
    (get_property demoStore "property-1" demoDetailRandom).map
        (fun x => x.1.prediction.forecast12Months) ≠
      .error (.http notFoundError) := by
  constructor
  · exact (c5_detail_forecast demoStore demoDetailRandom "no-such-id"
      ⟨demoRand, fun i _ _ => demoRand_valid i, rfl⟩).2 (by decide)
  · obtain ⟨p, _, _, hmap⟩ := (c5_detail_forecast demoStore demoDetailRandom "property-1"
      ⟨demoRand, fun i _ _ => demoRand_valid i, rfl⟩).1
      ⟨mkProperty 1 (demoRand 1),
       List.mem_map.mpr ⟨0, List.mem_range.mpr (by omega), rfl⟩, rfl⟩
    rw [hmap]
    simp

/-- C5 counterexample: the generator can draw price 1000011 for
`property-1`; the code reports `int(1000011 * 1.05) = 1050011`
(truncation), while `round(1000011 * 1.05) = round(1050011.55) = 1050012`
as the claim states it. -/
theorem c5_counterexample :
    (get_property demoStore "property-1" demoDetailRandom).map
        (fun x => ((x.1.prediction.forecast12Months : Int))) = .ok 1050011 ∧
    spec_forecast12Months 1000011 = 1050012 ∧
    ((1050011 : Int) ≠ 1050012) := by
  refine ⟨rfl, ?_, by decide⟩
  unfold spec_forecast12Months
  norm_num [round_eq]

end RQBackend
